import Mathlib

/-!
Verification of the OMG-Agent agent core against its specification.

The definitions below are a shallow embedding of the Python sources under
`src/omg_agent/core/agent/`:

* `actions/space.py`   — `ActionType`, `Point`, `Action`, `ActionSpace`
* `actions/parser.py`  — `ActionParser` (tab format and function-call format)
* `history.py`         — `HistoryEntry`, `LoopDetector`
* `planner.py`         — `SubTask`, `TaskPlan`, `TaskPlanner`
* `session.py`         — `SessionState`, `SessionManager.cleanup_old_sessions`
* `phone_agent.py`     — the parse-failure handling of `PhoneAgent._execute_step`

Python `dict[str, Any]` parameter maps are modelled as insertion-ordered
association lists (`List (String × PValue)`), where `PValue` covers the value
shapes the agent core actually stores in `Action.params`: strings, integers
and integer lists (points).  Machine-level details (timestamps, file storage)
are modelled as explicit integers / in-memory lists.
-/

namespace OMG

/-- `ActionType` enum from `actions/space.py`. -/
inductive ActionType where
  | CLICK
  | DOUBLE_TAP
  | LONG_PRESS
  | SWIPE
  | TYPE
  | BACK
  | HOME
  | LAUNCH
  | WAIT
  | INFO
  | COMPLETE
  | ABORT
  | TAKE_OVER
  | NOTE
deriving DecidableEq, Repr

/-- The `.value` string of each `ActionType` member. -/
def ActionType.toCode : ActionType → String
  | .CLICK => "CLICK"
  | .DOUBLE_TAP => "DOUBLE_TAP"
  | .LONG_PRESS => "LONG_PRESS"
  | .SWIPE => "SWIPE"
  | .TYPE => "TYPE"
  | .BACK => "BACK"
  | .HOME => "HOME"
  | .LAUNCH => "LAUNCH"
  | .WAIT => "WAIT"
  | .INFO => "INFO"
  | .COMPLETE => "COMPLETE"
  | .ABORT => "ABORT"
  | .TAKE_OVER => "TAKE_OVER"
  | .NOTE => "NOTE"

/-- A Python value stored in `Action.params`: a string, an integer, or a list
of integers (the shape of parsed point parameters). -/
inductive PValue where
  | vStr (s : String)
  | vInt (n : Int)
  | vInts (l : List Int)
deriving DecidableEq, Repr

/-- Python truthiness of a `PValue` (`bool(value)`): empty strings, zero and
empty lists are falsy. -/
def PValue.truthy : PValue → Bool
  | .vStr s => !s.isEmpty
  | .vInt n => n != 0
  | .vInts l => !l.isEmpty

/-- Insertion-ordered dictionary operations over the association-list model of
a Python `dict[str, PValue]`.  `get` finds the first binding (keys are unique
in every dictionary the source builds). -/
def dictGet (d : List (String × PValue)) (k : String) : Option PValue :=
  (d.find? (fun p => p.1 = k)).map (·.2)

/-- Membership test, Python `k in d`. -/
def dictContains (d : List (String × PValue)) (k : String) : Bool :=
  d.any (fun p => p.1 = k)

/-- Python `d[k] = v`: update in place if the key exists, append otherwise. -/
def dictSet (d : List (String × PValue)) (k : String) (v : PValue) :
    List (String × PValue) :=
  if dictContains d k then
    d.map (fun p => if p.1 = k then (k, v) else p)
  else
    d ++ [(k, v)]

/-- Python `d.pop(k, default)` restricted to removal: the dictionary with key
`k` removed. -/
def dictRemove (d : List (String × PValue)) (k : String) :
    List (String × PValue) :=
  d.filter (fun p => p.1 ≠ k)

/-- `Action` dataclass from `actions/space.py`. -/
structure Action where
  actionType : ActionType
  thinking : String := ""
  explanation : String := ""
  summary : String := ""
  params : List (String × PValue) := []
deriving DecidableEq, Repr

/-- `Point` dataclass from `actions/space.py` (post-init validated). -/
structure Point where
  x : Int
  y : Int
deriving DecidableEq, Repr

/-- `Point.__post_init__`: constructing a `Point` raises `ValueError` unless
both coordinates lie in `[0, 1000]`; modelled as an `Except` constructor. -/
def Point.make (x y : Int) : Except String Point :=
  if 0 ≤ x ∧ x ≤ 1000 ∧ 0 ≤ y ∧ y ≤ 1000 then
    .ok ⟨x, y⟩
  else
    .error ("Point coordinates must be in range [0, 1000], got (" ++
      toString x ++ ", " ++ toString y ++ ")")

/-- `ActionSpace.REQUIRED_PARAMS` table. -/
def REQUIRED_PARAMS : ActionType → List String
  | .CLICK => ["point"]
  | .DOUBLE_TAP => ["point"]
  | .LONG_PRESS => ["point"]
  | .SWIPE => []
  | .TYPE => ["value"]
  | .BACK => []
  | .HOME => []
  | .LAUNCH => ["value"]
  | .WAIT => ["value"]
  | .INFO => ["value"]
  | .COMPLETE => []
  | .ABORT => []
  | .TAKE_OVER => []
  | .NOTE => ["value"]

/-- `ActionSpace.OPTIONAL_PARAMS` table (`.get(action_type, [])` view). -/
def OPTIONAL_PARAMS : ActionType → List String
  | .CLICK => ["message"]
  | .LONG_PRESS => ["duration"]
  | .SWIPE => ["duration"]
  | .TYPE => ["point", "keyboard_exists"]
  | .COMPLETE => ["return", "status"]
  | .ABORT => ["value", "reason"]
  | .TAKE_OVER => ["message"]
  | _ => []

/-- First missing required parameter, with the error message produced by
`ActionSpace.validate`. -/
def checkRequired (t : ActionType) (params : List (String × PValue)) :
    Option String :=
  (REQUIRED_PARAMS t).findSome? fun p =>
    if dictContains params p then none
    else some ("Missing required parameter \x27" ++ p ++ "\x27 for " ++ t.toCode)

/-- Well-formedness of one point value as checked by `ActionSpace.validate`:
the `isinstance(point, (list, tuple))` guard means only list values are
inspected; a list must have exactly 2 integer coordinates in `[0, 1000]`. -/
def checkOnePoint (name : String) (v : PValue) : Option String :=
  match v with
  | .vInts l =>
      if l.length ≠ 2 then
        some ("Point " ++ name ++ " must have 2 coordinates")
      else if !(l.all fun c => decide (0 ≤ c) && decide (c ≤ 1000)) then
        some ("Point " ++ name ++ " coordinates must be integers in [0, 1000]")
      else none
  | _ => none

/-- The point-coordinate validation loop of `ActionSpace.validate` over the
parameter names `point`, `point1`, `point2`, in source order. -/
def checkPoints (params : List (String × PValue)) : Option String :=
  ["point", "point1", "point2"].findSome? fun name =>
    match dictGet params name with
    | some v => checkOnePoint name v
    | none => none

/-- `ActionSpace.validate` from `actions/space.py`: required parameters, the
SWIPE disjunction, then point-coordinate checks. -/
def validate (a : Action) : Bool × String :=
  match checkRequired a.actionType a.params with
  | some e => (false, e)
  | none =>
    let hasTwoPoints := dictContains a.params "point1" && dictContains a.params "point2"
    let hasPointDirection := dictContains a.params "point" && dictContains a.params "direction"
    if a.actionType = ActionType.SWIPE ∧ ¬(hasTwoPoints || hasPointDirection) = true then
      (false, "SWIPE requires either (point1, point2) or (point, direction)")
    else
      match checkPoints a.params with
      | some e => (false, e)
      | none => (true, "")

/-- `TaskStatus` enum from `planner.py`. -/
inductive TaskStatus where
  | pending
  | inProgress
  | completed
  | failed
  | blocked
deriving DecidableEq, Repr

/-- `SubTask` dataclass from `planner.py`. -/
structure SubTask where
  id : Int
  description : String
  status : TaskStatus
  appTarget : Option String
  verification : Option String
deriving DecidableEq, Repr

/-- `TaskPlan` dataclass from `planner.py`. -/
structure TaskPlan where
  originalTask : String
  subTasks : List SubTask
  currentStep : Int
  executionNotes : List String
  replannedCount : Int
deriving DecidableEq, Repr

/-- `TaskPlan.current_sub_task`: the sub-task at index `current_step` when
`0 <= current_step < len(sub_tasks)`, else `None`. -/
def TaskPlan.currentSubTask (p : TaskPlan) : Option SubTask :=
  if 0 ≤ p.currentStep ∧ p.currentStep < p.subTasks.length then
    p.subTasks.get? p.currentStep.toNat
  else
    none

/-- `TaskPlan.mark_current_complete`: set the current sub-task status to
completed and advance `current_step`; no-op when there is no current one. -/
def TaskPlan.markCurrentComplete (p : TaskPlan) : TaskPlan :=
  match p.currentSubTask with
  | some st =>
      { p with
        subTasks := p.subTasks.set p.currentStep.toNat { st with status := .completed }
        currentStep := p.currentStep + 1 }
  | none => p

/-- `TaskPlan.mark_current_failed`: set the current sub-task status to failed
and record an execution note; `current_step` is unchanged. -/
def TaskPlan.markCurrentFailed (p : TaskPlan) (reason : String) : TaskPlan :=
  match p.currentSubTask with
  | some st =>
      { p with
        subTasks := p.subTasks.set p.currentStep.toNat { st with status := .failed }
        executionNotes := p.executionNotes ++
          ["步骤" ++ toString (p.currentStep + 1) ++ "失败: " ++ reason] }
  | none => p

/-- `TaskPlan.skip_current`: mark the current sub-task completed, record a
note, and advance `current_step`. -/
def TaskPlan.skipCurrent (p : TaskPlan) (reason : String) : TaskPlan :=
  match p.currentSubTask with
  | some st =>
      { p with
        subTasks := p.subTasks.set p.currentStep.toNat { st with status := .completed }
        executionNotes := p.executionNotes ++
          ["跳过步骤" ++ toString (p.currentStep + 1) ++ ": " ++ reason]
        currentStep := p.currentStep + 1 }
  | none => p

/-- Python `list.insert(i, x)`: negative indices count from the end, and the
index is clamped into `[0, len]`; insertion always grows the list by one. -/
def pyListInsert (l : List SubTask) (i : Int) (a : SubTask) : List SubTask :=
  let n : Int := l.length
  let idx : Int := if i < 0 then max 0 (n + i) else min i n
  l.take idx.toNat ++ a :: l.drop idx.toNat

/-- `TaskPlan._renumber_steps`: 1-based contiguous ids. -/
def renumberSteps (l : List SubTask) : List SubTask :=
  l.enum.map (fun p => { p.2 with id := Int.ofNat p.1 + 1 })

/-- `TaskPlan.insert_step`: insert a pending sub-task at `position` (after the
current step when `position` is `None`), renumber, and record a note. -/
def TaskPlan.insertStep (p : TaskPlan) (description : String)
    (verification : Option String) (position : Option Int) : TaskPlan :=
  let pos := position.getD (p.currentStep + 1)
  let newStep : SubTask :=
    { id := 0, description := description, status := .pending,
      appTarget := none, verification := verification }
  { p with
    subTasks := renumberSteps (pyListInsert p.subTasks pos newStep)
    executionNotes := p.executionNotes ++ ["新增步骤: " ++ description] }

/-- The `current_step` invariant of a `TaskPlan` stated in the spec. -/
def TaskPlan.stepInvariant (p : TaskPlan) : Prop :=
  0 ≤ p.currentStep ∧ p.currentStep ≤ p.subTasks.length

/-- One record of the JSON array `TaskPlanner._decompose_with_llm` expects
from the model: the `id` / `description` / `app_target` / `verification`
fields, each possibly absent. -/
structure SubTaskRec where
  id : Option Int
  description : Option String
  appTarget : Option String
  verification : Option String
deriving DecidableEq, Repr

/-- The sub-task construction loop of `_decompose_with_llm` (ids default to
the 1-based position). -/
def buildSubTasks (steps : List SubTaskRec) : List SubTask :=
  steps.foldl
    (fun acc step =>
      acc ++ [{ id := step.id.getD (Int.ofNat acc.length + 1),
                description := step.description.getD "",
                status := .pending,
                appTarget := step.appTarget,
                verification := step.verification }])
    []

/-- The fallback plan built at the end of `_decompose_with_llm` when the LLM
call or the JSON extraction fails: a single generic sub-task. -/
def llmFallbackPlan (task : String) : TaskPlan :=
  { originalTask := task
    subTasks := [{ id := 1, description := "执行任务", status := .pending,
                   appTarget := none, verification := some "任务完成" }]
    currentStep := 0
    executionNotes := []
    replannedCount := 0 }

/-- The generic fallback of `TaskPlanner.create_plan` used when no template
matches and LLM decomposition is not attempted: a two-step plan. -/
def genericTwoStepPlan (task : String) : TaskPlan :=
  { originalTask := task
    subTasks :=
      [{ id := 1, description := "分析任务并开始执行", status := .pending,
         appTarget := none, verification := some "任务已开始" },
       { id := 2, description := "完成任务目标", status := .pending,
         appTarget := none, verification := some "目标已达成" }]
    currentStep := 0
    executionNotes := []
    replannedCount := 0 }

/-- Python `str.find(ch)` as an optional index (over code points). -/
def strFindIdx (s : String) (c : Char) : Option Nat :=
  s.toList.indexOf? c

/-- Python `str.rfind(ch)` as an optional index (over code points). -/
def strRFindIdx (s : String) (c : Char) : Option Nat :=
  match (s.toList.reverse).indexOf? c with
  | some j => some (s.toList.length - 1 - j)
  | none => none

/-- Python slice `s[i:j]` over code points (empty when `j <= i`). -/
def pySlice (s : String) (i j : Nat) : String :=
  ⟨(s.toList.drop i).take (j - i)⟩

/-- `TaskPlanner._decompose_with_llm` from `planner.py`.  The LLM call is
modelled as its result (`Except` captures an exception from the client), and
`jsonLoads` abstracts `json.loads` plus the per-record field extraction —
`none` stands for any exception raised while parsing or while reading the
records.  The response is scanned for the first `[` and the last `]`; any
failure on this path yields `llmFallbackPlan`. -/
def decomposeWithLlm (task : String) (llmResult : Except String String)
    (jsonLoads : String → Option (List SubTaskRec)) : TaskPlan :=
  match llmResult with
  | .error _ => llmFallbackPlan task
  | .ok content =>
    match strFindIdx content '[' with
    | none => llmFallbackPlan task
    | some i =>
      let jsonEnd : Nat :=
        match strRFindIdx content ']' with
        | some j => j + 1
        | none => 0
      let jsonStr := pySlice content i jsonEnd
      match jsonLoads jsonStr with
      | none => llmFallbackPlan task
      | some steps =>
          { originalTask := task, subTasks := buildSubTasks steps,
            currentStep := 0, executionNotes := [], replannedCount := 0 }

/-- `SessionState` dataclass from `session.py`.  The ISO-format
`created_at` / `updated_at` strings are modelled as the integers (epoch
seconds) they represent; `datetime` comparison becomes integer comparison. -/
structure SessionState where
  sessionId : String
  task : String
  status : String
  createdAt : Int
  updatedAt : Int
  stepCount : Nat
deriving DecidableEq, Repr

/-- The removal predicate of `SessionManager.cleanup_old_sessions`: strictly
older than the cutoff and in a terminal status. -/
def shouldCleanup (cutoff : Int) (s : SessionState) : Bool :=
  s.updatedAt < cutoff && (s.status == "completed" || s.status == "aborted")

/-- The deletion loop of `cleanup_old_sessions` over the session map (in
insertion order), returning the surviving sessions and the removal count. -/
def cleanupLoop (cutoff : Int) : List SessionState → List SessionState × Nat
  | [] => ([], 0)
  | s :: rest =>
    let r := cleanupLoop cutoff rest
    if shouldCleanup cutoff s then (r.1, r.2 + 1) else (s :: r.1, r.2)

/-- `SessionManager.cleanup_old_sessions(max_age_hours)`: the cutoff is
`now - timedelta(hours=max_age_hours)`, i.e. `now - 3600 * max_age_hours`
seconds. -/
def cleanupOldSessions (now maxAgeHours : Int) (sessions : List SessionState) :
    List SessionState × Nat :=
  cleanupLoop (now - 3600 * maxAgeHours) sessions

/-- `HistoryEntry` from `history.py`, restricted to the fields `check_loop`
reads (screenshot, timestamp and reply do not influence loop detection). -/
structure HistoryEntry where
  step : Nat
  action : Action
  observation : String
deriving DecidableEq, Repr

/-- `LoopDetector.__init__` thresholds. -/
structure LoopDetector where
  maxConsecutiveSame : Nat
  maxConsecutiveSwipes : Nat
  maxClickSamePoint : Nat
  pointTolerance : Nat
deriving DecidableEq, Repr

/-- The default `LoopDetector()` used by `HistoryManager` (3, 5, 3, 50). -/
def defaultLoopDetector : LoopDetector :=
  { maxConsecutiveSame := 3, maxConsecutiveSwipes := 5,
    maxClickSamePoint := 3, pointTolerance := 50 }

/-- Python slice `entries[-n:]`. -/
def takeLast (l : List HistoryEntry) (n : Nat) : List HistoryEntry :=
  l.drop (l.length - n)

/-- `LoopDetector._are_points_similar`: false on an empty list or any value
that is not a list of length at least 2; otherwise every point is within the
tolerance of the first, in both coordinates. -/
def arePointsSimilar (d : LoopDetector) (points : List PValue) : Bool :=
  match points with
  | [] => false
  | base :: rest =>
    match base with
    | .vInts (b0 :: b1 :: _) =>
        rest.all fun p =>
          match p with
          | .vInts (p0 :: p1 :: _) =>
              decide ((p0 - b0).natAbs ≤ d.pointTolerance) &&
              decide ((p1 - b1).natAbs ≤ d.pointTolerance)
          | _ => false
    | _ => false

/-- `LoopDetector._actions_identical`: kind mismatch is never identical; Tap
compares the two points with tolerance when both are truthy, TypeText
compares the text, Swipe compares both endpoints with tolerance when all are
truthy, Back/Home/Wait are always identical; every other case falls back to
parameter-map equality.  (When a truthy point value is not an integer list
the source would raise `TypeError`; that case is unreachable for parsed
actions and modelled as `false`.) -/
def actionsIdentical (d : LoopDetector) (a1 a2 : Action) : Bool :=
  if a1.actionType ≠ a2.actionType then false
  else if a1.actionType = ActionType.CLICK then
    let p1 := dictGet a1.params "point"
    let p2 := dictGet a2.params "point"
    if (p1.map PValue.truthy).getD false && (p2.map PValue.truthy).getD false then
      match p1, p2 with
      | some (.vInts (x1 :: y1 :: _)), some (.vInts (x2 :: y2 :: _)) =>
          decide ((x1 - x2).natAbs ≤ d.pointTolerance) &&
          decide ((y1 - y2).natAbs ≤ d.pointTolerance)
      | _, _ => false
    else decide (a1.params = a2.params)
  else if a1.actionType = ActionType.TYPE then
    decide (dictGet a1.params "value" = dictGet a2.params "value")
  else if a1.actionType = ActionType.SWIPE then
    let s1 := dictGet a1.params "point1"
    let e1 := dictGet a1.params "point2"
    let s2 := dictGet a2.params "point1"
    let e2 := dictGet a2.params "point2"
    if (s1.map PValue.truthy).getD false && (e1.map PValue.truthy).getD false &&
       (s2.map PValue.truthy).getD false && (e2.map PValue.truthy).getD false then
      match s1, s2, e1, e2 with
      | some v1, some v2, some w1, some w2 =>
          arePointsSimilar d [v1, v2] && arePointsSimilar d [w1, w2]
      | _, _, _, _ => false
    else decide (a1.params = a2.params)
  else if a1.actionType = ActionType.BACK ∨ a1.actionType = ActionType.HOME ∨
          a1.actionType = ActionType.WAIT then
    true
  else
    decide (a1.params = a2.params)

/-- Check 1 of `LoopDetector.check_loop`: a run of one action kind over the
last `max_consecutive_same` entries, with the Swipe and Tap refinements. -/
def checkSameKindRun (d : LoopDetector) (entries : List HistoryEntry) :
    Option (Bool × String) :=
  let recent := takeLast entries d.maxConsecutiveSame
  if recent.length ≥ d.maxConsecutiveSame then
    match recent.map (·.action.actionType) with
    | [] => none
    | t :: rest =>
      if rest.all (fun u => decide (u = t)) then
        if t = ActionType.SWIPE then
          if entries.length ≥ d.maxConsecutiveSwipes then
            let swipeCount :=
              ((takeLast entries d.maxConsecutiveSwipes).filter
                (fun e => decide (e.action.actionType = ActionType.SWIPE))).length
            if swipeCount ≥ d.maxConsecutiveSwipes then
              some (true, "连续滑动 " ++ toString swipeCount ++
                " 次，请尝试其他方法（如搜索、返回）")
            else none
          else none
        else if t = ActionType.CLICK then
          let points := recent.filterMap fun e =>
            match dictGet e.action.params "point" with
            | some v => if v.truthy then some v else none
            | none => none
          if points.length ≥ d.maxClickSamePoint && arePointsSimilar d points then
            some (true, "多次点击同一位置无效，UI 可能没有响应，请尝试不同位置或操作")
          else none
        else none
      else none
  else none

/-- Check 2 of `check_loop`: the last four entries alternate between exactly
two distinct kinds (A,B,A,B). -/
def checkAlternation (entries : List HistoryEntry) : Option (Bool × String) :=
  if entries.length ≥ 4 then
    match (takeLast entries 4).map (·.action.actionType) with
    | [a, b, c, e] =>
      if a = c ∧ b = e ∧ a ≠ b then
        some (true, "检测到 " ++ a.toCode ++ "-" ++ b.toCode ++
          " 交替循环，请换一种方法")
      else none
    | _ => none
  else none

/-- Check 3 of `check_loop`: counting backwards from the newest entry, the
run of functionally identical consecutive actions, flagged at the
`max_consecutive_same` threshold with the count in the message. -/
def checkExactRepeat (d : LoopDetector) (entries : List HistoryEntry) :
    Option (Bool × String) :=
  match entries.reverse with
  | last :: prev :: _ =>
    if actionsIdentical d last.action prev.action then
      let run := (entries.reverse.drop 1).takeWhile
        (fun e => actionsIdentical d e.action last.action)
      let repeatCount := 1 + run.length
      if repeatCount ≥ d.maxConsecutiveSame then
        some (true, "完全相同的操作重复了 " ++ toString repeatCount ++
          " 次，请尝试其他方法")
      else none
    else none
  | _ => none

/-- `LoopDetector.check_loop`: fewer than 2 entries never loop; otherwise the
three heuristics run in order and the first match wins. -/
def checkLoop (d : LoopDetector) (entries : List HistoryEntry) : Bool × String :=
  if entries.length < 2 then (false, "")
  else
    match checkSameKindRun d entries with
    | some r => r
    | none =>
      match checkAlternation entries with
      | some r => r
      | none =>
        match checkExactRepeat d entries with
        | some r => r
        | none => (false, "")

/-- `StepResult` dataclass from `phone_agent.py` (fields used by the
parse-failure path). -/
structure StepResult where
  success : Bool
  finished : Bool
  action : Option Action
  message : String
  stepCount : Nat
deriving DecidableEq, Repr

/-- `PhoneAgent.__init__`: `self._max_parse_errors = 3`. -/
def MAX_PARSE_ERRORS : Nat := 3

/-- The Abort action synthesized by `_execute_step` after too many
consecutive parse errors. -/
def parseFailureAbortAction (count : Nat) : Action :=
  { actionType := .ABORT
    thinking := "LLM is not returning parseable actions."
    explanation := ""
    summary := ""
    params := [("value",
      .vStr ("LLM response parsing failed " ++ toString count ++ " times"))] }

/-- The Wait action substituted for a step whose response failed to parse. -/
def parseFailureWaitAction (e : String) : Action :=
  { actionType := .WAIT
    thinking := "Action parsing failed: " ++ e ++ ". Waiting to retry."
    explanation := ""
    summary := ""
    params := [("value", .vStr "1")] }

/-- Outcome of the parse phase of one step: either an action to carry on
with, or a final `StepResult` that ends the run. -/
inductive ParsePhaseOutcome where
  | proceed (a : Action)
  | halt (r : StepResult)
deriving DecidableEq, Repr

/-- The action-parse handling of `PhoneAgent._execute_step` (lines 462-497):
a successful parse resets `_parse_error_count` to 0 and proceeds with the
parsed action; a `ValueError` increments the counter, and the step either
halts with a synthesized Abort (counter at the ceiling) or proceeds with a
substituted Wait action.  Returns the new counter value and the outcome. -/
def handleParsedResponse (parsed : Except String Action)
    (parseErrorCount maxParseErrors stepNum : Nat) : Nat × ParsePhaseOutcome :=
  match parsed with
  | .ok a => (0, .proceed a)
  | .error e =>
    let c := parseErrorCount + 1
    if c ≥ maxParseErrors then
      (c, .halt
        { success := false
          finished := true
          action := some (parseFailureAbortAction c)
          message := "Task aborted: LLM response parsing failed repeatedly"
          stepCount := stepNum })
    else
      (c, .proceed (parseFailureWaitAction e))

/-- Python whitespace (`str.strip`, regex `\s`), restricted to the ASCII
whitespace the agent's strings contain. -/
def pyIsSpace (c : Char) : Bool :=
  c = ' ' || c = '\t' || c = '\n' || c = '\r' ||
  c = Char.ofNat 11 || c = Char.ofNat 12

/-- Python `str.strip()`. -/
def pyStrip (s : String) : String :=
  ⟨((s.toList.dropWhile pyIsSpace).reverse.dropWhile pyIsSpace).reverse⟩

/-- Python `str.lower()` (ASCII, which covers every key the parser sees). -/
def pyLower (s : String) : String :=
  ⟨s.toList.map Char.toLower⟩

/-- Python `str.upper()` (ASCII). -/
def pyUpper (s : String) : String :=
  ⟨s.toList.map Char.toUpper⟩

/-- Index of the first occurrence of `sep` in `l` (Python `str.find`). -/
def findSubIdx (l sep : List Char) : Option Nat :=
  if sep.isPrefixOf l then some 0
  else
    match l with
    | [] => none
    | _ :: t => (findSubIdx t sep).map (· + 1)

/-- Python `needle in haystack`. -/
def strContains (s sub : String) : Bool :=
  (findSubIdx s.toList sub.toList).isSome

/-- Python `s.split(sep)[0]`: the text before the first occurrence of `sep`
(the whole string when `sep` does not occur). -/
def pySplitGet0 (s sep : String) : String :=
  match findSubIdx s.toList sep.toList with
  | some i => ⟨s.toList.take i⟩
  | none => s

/-- Python `s.split(sep)[1]`: the text between the first and second
occurrence of `sep` (up to the end when there is no second occurrence;
only evaluated under an `in` guard in the source). -/
def pySplitGet1 (s sep : String) : String :=
  match findSubIdx s.toList sep.toList with
  | none => ""
  | some i =>
    let r := s.toList.drop (i + sep.toList.length)
    match findSubIdx r sep.toList with
    | some j => ⟨r.take j⟩
    | none => ⟨r⟩

/-- Python `s.split(sep, 1)[1]`: everything after the first occurrence. -/
def splitOnceRest (s sep : String) : String :=
  match findSubIdx s.toList sep.toList with
  | some i => ⟨s.toList.drop (i + sep.toList.length)⟩
  | none => ""

/-- Python `str.replace(old, new)` (leftmost, non-overlapping).  The fuel is
the input length, enough since every step consumes at least one character. -/
def strReplaceAux (fuel : Nat) (old new : List Char) (l : List Char) :
    List Char :=
  match fuel with
  | 0 => l
  | fuel + 1 =>
    match l with
    | [] => []
    | c :: rest =>
      if old ≠ [] ∧ old.isPrefixOf l then
        new ++ strReplaceAux fuel old new (l.drop old.length)
      else
        c :: strReplaceAux fuel old new rest

/-- Python `s.replace(old, new)`. -/
def strReplaceAll (s old new : String) : String :=
  ⟨strReplaceAux s.toList.length old.toList new.toList s.toList⟩

/-- One match of the regex `<\s*/?THINK\s*>` (IGNORECASE) at the head of the
list: returns whether the tag is a closing one and the rest of the input. -/
def matchThinkTag (l : List Char) : Option (Bool × List Char) :=
  match l with
  | '<' :: r =>
    let r1 := r.dropWhile pyIsSpace
    let (slash, r2) :=
      match r1 with
      | '/' :: t => (true, t)
      | _ => (false, r1)
    match r2 with
    | c1 :: c2 :: c3 :: c4 :: c5 :: r3 =>
      if c1.toLower = 't' ∧ c2.toLower = 'h' ∧ c3.toLower = 'i' ∧
         c4.toLower = 'n' ∧ c5.toLower = 'k' then
        match r3.dropWhile pyIsSpace with
        | '>' :: rest => some (slash, rest)
        | _ => none
      else none
    | _ => none
  | _ => none

/-- The `re.sub` scan of `_normalize_think_tags`, rewriting each matched tag
to the canonical `<THINK>` / `</THINK>`. -/
def normThinkAux (fuel : Nat) (l : List Char) : List Char :=
  match fuel with
  | 0 => l
  | fuel + 1 =>
    match l with
    | [] => []
    | c :: rest =>
      match matchThinkTag l with
      | some (slash, after) =>
          (if slash then "</THINK>" else "<THINK>").toList ++
            normThinkAux fuel after
      | none => c :: normThinkAux fuel rest

/-- `ActionParser._normalize_think_tags`: fix the `<TINK>` / `<think>` typo
variants, then normalize spacing/case via the regex scan. -/
def normalizeThinkTags (s : String) : String :=
  let s1 := strReplaceAll (strReplaceAll s "<TINK>" "<THINK>") "</TINK>" "</THINK>"
  let s2 := strReplaceAll (strReplaceAll s1 "<think>" "<THINK>") "</think>" "</THINK>"
  ⟨normThinkAux s2.toList.length s2.toList⟩

/-- The split of the key-value line on the regex `\t+|\s{2,}`: a tab run, or
a run of at least two whitespace characters, separates fields. -/
def splitTabAux (fuel : Nat) (cur : List Char) (l : List Char) : List String :=
  match fuel with
  | 0 => [⟨cur.reverse ++ l⟩]
  | fuel + 1 =>
    match l with
    | [] => [⟨cur.reverse⟩]
    | c :: rest =>
      if c = '\t' then
        (⟨cur.reverse⟩ : String) :: splitTabAux fuel [] (rest.dropWhile (· == '\t'))
      else if pyIsSpace c && (match rest with | r :: _ => pyIsSpace r | [] => false) then
        (⟨cur.reverse⟩ : String) :: splitTabAux fuel [] (rest.dropWhile pyIsSpace)
      else
        splitTabAux fuel (c :: cur) rest

/-- Split a key-value line into fields, `re.split(r"\t+|\s{2,}", s)`. -/
def splitTabFields (s : String) : List String :=
  splitTabAux s.toList.length [] s.toList

/-- Python `str.split()` with no separator: split on whitespace runs and
drop empty pieces. -/
def pySplitWsAux (fuel : Nat) (l : List Char) : List String :=
  match fuel with
  | 0 => if l.isEmpty then [] else [⟨l⟩]
  | fuel + 1 =>
    match l.dropWhile pyIsSpace with
    | [] => []
    | rest =>
      let word := rest.takeWhile (fun c => !pyIsSpace c)
      (⟨word⟩ : String) :: pySplitWsAux fuel (rest.drop word.length)

/-- Python `s.split()`. -/
def pySplitWs (s : String) : List String :=
  pySplitWsAux s.toList.length s.toList

/-- Decimal digits to a natural number. -/
def digitsToNat (l : List Char) : Nat :=
  l.foldl (fun acc c => 10 * acc + (c.toNat - 48)) 0

/-- Python `int(s)` on the clean numeric strings the parser feeds it: an
optional sign followed by decimal digits. -/
def pyInt (s : String) : Option Int :=
  match s.toList with
  | '-' :: ds =>
      if ds ≠ [] ∧ ds.all Char.isDigit then some (-(digitsToNat ds : Int))
      else none
  | '+' :: ds =>
      if ds ≠ [] ∧ ds.all Char.isDigit then some ((digitsToNat ds : Int))
      else none
  | ds =>
      if ds ≠ [] ∧ ds.all Char.isDigit then some ((digitsToNat ds : Int))
      else none

/-- `ActionParser._parse_point`: `"x,y"` or `"x y"` to a two-element integer
list; fewer than two pieces or a non-integer piece raises `ValueError`. -/
def parsePointStr (value : String) : Except String (List Int) :=
  match pySplitWs (strReplaceAll value "," " ") with
  | c0 :: c1 :: _ =>
    match pyInt c0, pyInt c1 with
    | some a, some b => .ok [a, b]
    | _, _ => .error ("invalid literal for int(): " ++ value)
  | _ => .error ("Invalid point format: " ++ value)

/-- All `ActionType` members, in declaration order. -/
def allActionTypes : List ActionType :=
  [.CLICK, .DOUBLE_TAP, .LONG_PRESS, .SWIPE, .TYPE, .BACK, .HOME, .LAUNCH,
   .WAIT, .INFO, .COMPLETE, .ABORT, .TAKE_OVER, .NOTE]

/-- `ActionParser.ACTION_NAME_MAP`, in source order. -/
def ACTION_NAME_MAP : List (String × ActionType) :=
  [("CLICK", .CLICK), ("DOUBLE_TAP", .DOUBLE_TAP), ("DOUBLE_CLICK", .DOUBLE_TAP),
   ("LONG_PRESS", .LONG_PRESS), ("LONGPRESS", .LONG_PRESS),
   ("SWIPE", .SWIPE), ("SLIDE", .SWIPE), ("SCROLL", .SWIPE),
   ("TYPE", .TYPE), ("BACK", .BACK), ("HOME", .HOME),
   ("LAUNCH", .LAUNCH), ("AWAKE", .LAUNCH), ("WAIT", .WAIT), ("INFO", .INFO),
   ("COMPLETE", .COMPLETE), ("ABORT", .ABORT),
   ("TAKE_OVER", .TAKE_OVER), ("Take_over", .TAKE_OVER), ("NOTE", .NOTE),
   ("Tap", .CLICK), ("Double Tap", .DOUBLE_TAP), ("Long Press", .LONG_PRESS),
   ("Swipe", .SWIPE), ("Type", .TYPE), ("Type_Name", .TYPE),
   ("Back", .BACK), ("Home", .HOME), ("Launch", .LAUNCH), ("Wait", .WAIT),
   ("Interact", .INFO), ("Call_API", .NOTE)]

/-- `ActionParser._normalize_action_type`: exact lookup, then
case-insensitive lookup, then a direct `ActionType(...)` match; otherwise
`ValueError`. -/
def normalizeActionType (actionName : String) : Except String ActionType :=
  let actionName := pyStrip actionName
  match (ACTION_NAME_MAP.find? (fun p => p.1 = actionName)).map (·.2) with
  | some t => .ok t
  | none =>
    let upperName := pyUpper actionName
    match (ACTION_NAME_MAP.find? (fun p => pyUpper p.1 = upperName)).map (·.2) with
    | some t => .ok t
    | none =>
      match allActionTypes.find? (fun t => t.toCode = upperName) with
      | some t => .ok t
      | none => .error ("Unknown action type: " ++ actionName)

/-- The intermediate dictionary built by both parsing paths.  The
`action_type` entry of the Python dict is carried separately from the other
fields; the other fields keep their insertion order, so popping the special
keys in `_build_action` leaves the parameter order unchanged, exactly as in
the source. -/
structure ParsedData where
  actionType : Option ActionType
  fields : List (String × PValue)
deriving DecidableEq, Repr

/-- String rendering of a parameter value (Python `f"{value}"`), used when a
special field arrives as a non-string. -/
def pvalueToStr : PValue → String
  | .vStr s => s
  | .vInt n => toString n
  | .vInts l => "[" ++ String.intercalate ", " (l.map toString) ++ "]"

/-- Python `data.pop(k1, data.pop(k2, ""))`: both keys are removed (the
second pop is evaluated eagerly), and the first key's value wins. -/
def popTwo (fields : List (String × PValue)) (k1 k2 : String) :
    Option PValue × List (String × PValue) :=
  let v :=
    match dictGet fields k1 with
    | some v => some v
    | none => dictGet fields k2
  (v, dictRemove (dictRemove fields k1) k2)

/-- `ActionParser._build_action`: pop the special keys (action type defaults
to `COMPLETE`), everything left is `params`. -/
def buildAction (d : ParsedData) : Action :=
  let (thinkV, f1) := popTwo d.fields "thinking" "cot"
  let (explV, f2) := popTwo f1 "explanation" "explain"
  let sumV := dictGet f2 "summary"
  let f3 := dictRemove f2 "summary"
  { actionType := d.actionType.getD .COMPLETE
    thinking := (thinkV.map pvalueToStr).getD ""
    explanation := (explV.map pvalueToStr).getD ""
    summary := (sumV.map pvalueToStr).getD ""
    params := f3 }

/-- The key-value dispatch of `_parse_tab_format`, one `key:value` field at
a time. -/
def tabConsumeKv (d : ParsedData) (kv : String) : Except String ParsedData :=
  if !strContains kv ":" then .ok d
  else
    let key := pyLower (pyStrip (pySplitGet0 kv ":"))
    let value := pyStrip (splitOnceRest kv ":")
    if key = "action" then do
      let t ← normalizeActionType value
      .ok { d with actionType := some t }
    else if key = "explain" then
      .ok { d with fields := dictSet d.fields "explanation" (.vStr value) }
    else if key = "summary" then
      .ok { d with fields := dictSet d.fields "summary" (.vStr value) }
    else if key = "point" ∨ key = "point1" ∨ key = "point2" then do
      let pt ← parsePointStr value
      .ok { d with fields := dictSet d.fields key (.vInts pt) }
    else if key = "direction" then
      .ok { d with fields := dictSet d.fields "direction" (.vStr (pyUpper value)) }
    else if key = "value" then
      .ok { d with fields := dictSet d.fields "value" (.vStr value) }
    else if key = "return" then
      .ok { d with fields := dictSet d.fields "return" (.vStr value) }
    else
      .ok { d with fields := dictSet d.fields key (.vStr value) }

/-- `ActionParser._parse_tab_format`: normalize THINK tags, pull the
thinking block out, split the remainder into `key:value` fields, and build
the action. -/
def parseTabFormat (response : String) : Except String Action := do
  let response := normalizeThinkTags response
  let (thinking, kvPart) :=
    if strContains response "<THINK>" && strContains response "</THINK>" then
      (pyStrip (pySplitGet0 (pySplitGet1 response "<THINK>") "</THINK>"),
       pyStrip (pySplitGet1 response "</THINK>"))
    else ("", response)
  let kvs := ((splitTabFields kvPart).map pyStrip).filter (fun s => !s.isEmpty)
  let d0 : ParsedData := { actionType := none, fields := [("thinking", .vStr thinking)] }
  let d ← kvs.foldlM tabConsumeKv d0
  .ok (buildAction d)

/-- `ActionParser._extract_balanced_call`: scan from the marker with a paren
counter that respects quoted strings and escaped quotes. -/
def extractBalancedAux (l : List Char) (count : Int) (inString : Bool)
    (stringChar : Char) (escape : Bool) (acc : List Char) : Option String :=
  match l with
  | [] => none
  | c :: rest =>
    if inString then
      if escape then extractBalancedAux rest count inString stringChar false (c :: acc)
      else if c = '\\' then extractBalancedAux rest count inString stringChar true (c :: acc)
      else if c = stringChar then extractBalancedAux rest count false stringChar false (c :: acc)
      else extractBalancedAux rest count inString stringChar false (c :: acc)
    else
      if c = '"' ∨ c = '\'' then extractBalancedAux rest count true c false (c :: acc)
      else if c = '(' then extractBalancedAux rest (count + 1) false stringChar false (c :: acc)
      else if c = ')' then
        let count' := count - 1
        if count' = 0 then some ⟨(c :: acc).reverse⟩
        else extractBalancedAux rest count' false stringChar false (c :: acc)
      else extractBalancedAux rest count false stringChar false (c :: acc)

/-- `ActionParser._extract_balanced_call` entry point. -/
def extractBalancedCall (text startMarker : String) : Option String :=
  match findSubIdx text.toList startMarker.toList with
  | none => none
  | some start => extractBalancedAux (text.toList.drop start) 0 false ' ' false []

/-- Capture of the regex `["\'](.+?)["\']` after its opening quote: the
shortest non-empty run of non-newline characters ending right before a
quote of either kind. -/
def msgCaptureAux (l : List Char) (acc : List Char) : Option String :=
  match l with
  | [] => none
  | c :: rest =>
    if (c = '"' ∨ c = '\'') ∧ acc ≠ [] then some ⟨acc.reverse⟩
    else if c = '\n' then none
    else msgCaptureAux rest (c :: acc)

/-- The regex `message\s*=\s*["\'](.+?)["\']` matched at the head of `l`. -/
def matchMsgAt (l : List Char) : Option String :=
  if "message".toList.isPrefixOf l then
    match (l.drop 7).dropWhile pyIsSpace with
    | '=' :: r2 =>
      match r2.dropWhile pyIsSpace with
      | q :: r3 => if q = '"' ∨ q = '\'' then msgCaptureAux r3 [] else none
      | [] => none
    | _ => none
  else none

/-- `re.search` for the message pattern: leftmost match wins. -/
def searchMessageVal (l : List Char) : Option String :=
  match l with
  | [] => none
  | _ :: rest =>
    match matchMsgAt l with
    | some s => some s
    | none => searchMessageVal rest

/-- Remainder check for the anchored suffix `(?:\s*\))?$` of the Type-text
regex: the rest is empty or whitespace followed by a single `)`. -/
def textSuffixOk (l : List Char) : Bool :=
  l.isEmpty || l.dropWhile pyIsSpace == [')']

/-- Capture of `["\'](.+?)["\'](?:\s*\))?$` after its opening quote: the
shortest non-empty capture whose closing quote is followed by a valid
anchored suffix (the non-greedy engine extends past quotes with an invalid
suffix). -/
def textCaptureAux (l : List Char) (acc : List Char) : Option String :=
  match l with
  | [] => none
  | c :: rest =>
    if (c = '"' ∨ c = '\'') ∧ acc ≠ [] ∧ textSuffixOk rest then some ⟨acc.reverse⟩
    else if c = '\n' then none
    else textCaptureAux rest (c :: acc)

/-- The regex `text\s*=\s*["\'](.+?)["\'](?:\s*\))?$` matched at the head. -/
def matchTextAt (l : List Char) : Option String :=
  if "text".toList.isPrefixOf l then
    match (l.drop 4).dropWhile pyIsSpace with
    | '=' :: r2 =>
      match r2.dropWhile pyIsSpace with
      | q :: r3 => if q = '"' ∨ q = '\'' then textCaptureAux r3 [] else none
      | [] => none
    | _ => none
  else none

/-- `re.search` for the anchored Type-text pattern. -/
def searchTextVal (l : List Char) : Option String :=
  match l with
  | [] => none
  | _ :: rest =>
    match matchTextAt l with
    | some s => some s
    | none => searchTextVal rest

/-- Identifier characters for the literal call grammar. -/
def isIdentChar (c : Char) : Bool :=
  c.isAlpha || c.isDigit || c = '_'

/-- Parse an identifier (`[A-Za-z_][A-Za-z0-9_]*`). -/
def parseIdent (l : List Char) : Option (String × List Char) :=
  match l with
  | c :: _ =>
    if c.isAlpha || c = '_' then
      let word := l.takeWhile isIdentChar
      some (⟨word⟩, l.drop word.length)
    else none
  | [] => none

/-- Parse a signed decimal integer literal. -/
def parseIntLit (l : List Char) : Option (Int × List Char) :=
  let (neg, r) :=
    match l with
    | '-' :: t => (true, t)
    | '+' :: t => (false, t)
    | _ => (false, l)
  let ds := r.takeWhile Char.isDigit
  if ds.isEmpty then none
  else
    let n : Int := digitsToNat ds
    some (if neg then -n else n, r.drop ds.length)

/-- Escape mapping inside a Python string literal (the serializer emits no
escapes; only the common ones are mapped, others stand for themselves). -/
def escChar (c : Char) : Char :=
  if c = 'n' then '\n'
  else if c = 't' then '\t'
  else if c = 'r' then '\r'
  else c

/-- Parse the body of a string literal opened with quote `q`. -/
def parseStrBody (q : Char) (l : List Char) (acc : List Char) :
    Option (String × List Char) :=
  match l with
  | [] => none
  | c :: rest =>
    if c = q then some (⟨acc.reverse⟩, rest)
    else if c = '\\' then
      match rest with
      | [] => none
      | e :: rest2 => parseStrBody q rest2 (escChar e :: acc)
    else parseStrBody q rest (c :: acc)

/-- Parse the elements of an integer list literal after `[`. -/
def parseListElems (fuel : Nat) (l : List Char) (acc : List Int) :
    Option (List Int × List Char) :=
  match fuel with
  | 0 => none
  | fuel + 1 =>
    match l.dropWhile pyIsSpace with
    | ']' :: r => some (acc.reverse, r)
    | l1 =>
      match parseIntLit l1 with
      | none => none
      | some (n, r) =>
        match r.dropWhile pyIsSpace with
        | ',' :: r2 => parseListElems fuel r2 (n :: acc)
        | ']' :: r2 => some ((n :: acc).reverse, r2)
        | _ => none

/-- Parse one literal argument value: a string, an integer, or a list of
integers — the literal shapes `ast.literal_eval` receives from this
grammar. -/
def parseLit (l : List Char) : Option (PValue × List Char) :=
  match l with
  | [] => none
  | c :: rest =>
    if c = '"' ∨ c = '\'' then
      (parseStrBody c rest []).map (fun p => (.vStr p.1, p.2))
    else if c = '[' then
      (parseListElems (rest.length + 1) rest []).map (fun p => (.vInts p.1, p.2))
    else
      (parseIntLit l).map (fun p => (.vInt p.1, p.2))

/-- Parse the argument list of a call, `)`-terminated; keyword arguments
carry their name, positional ones do not (the source reads only
`call.keywords`). -/
def parseArgs (fuel : Nat) (l : List Char)
    (acc : List (Option String × PValue)) :
    Option (List (Option String × PValue) × List Char) :=
  match fuel with
  | 0 => none
  | fuel + 1 =>
    match l.dropWhile pyIsSpace with
    | ')' :: r => some (acc.reverse, r)
    | l1 =>
      let kwAttempt : Option (Option String × PValue × List Char) :=
        match parseIdent l1 with
        | some (k, r1) =>
          match r1.dropWhile pyIsSpace with
          | '=' :: r2 =>
            match parseLit (r2.dropWhile pyIsSpace) with
            | some (v, r3) => some (some k, v, r3)
            | none => none
          | _ => none
        | none =>
          match parseLit l1 with
          | some (v, r3) => some (none, v, r3)
          | none => none
      match kwAttempt with
      | none => none
      | some (name, v, r3) =>
        match r3.dropWhile pyIsSpace with
        | ',' :: r4 => parseArgs fuel r4 ((name, v) :: acc)
        | ')' :: r4 => some (((name, v) :: acc).reverse, r4)
        | _ => none

/-- The `ast.parse(response, mode="eval")` + `ast.literal_eval` stage,
restricted to the call grammar the source consumes: one `name(arg, ...)`
expression with literal arguments and nothing but whitespace around it.
`none` models the `SyntaxError` / `ValueError` of the AST path. -/
def pyCallParse (s : String) :
    Option (String × List (Option String × PValue)) :=
  match parseIdent (s.toList.dropWhile pyIsSpace) with
  | none => none
  | some (name, r) =>
    match r.dropWhile pyIsSpace with
    | '(' :: r2 =>
      match parseArgs (r2.length + 1) r2 [] with
      | some (args, rest) =>
          if (rest.dropWhile pyIsSpace).isEmpty then some (name, args) else none
      | none => none
    | _ => none

/-- The keyword dispatch loop of `_parse_function_call` over
`call.keywords` (positional arguments are skipped, as in the source). -/
def applyCallKeywords (args : List (Option String × PValue)) :
    Except String ParsedData :=
  args.foldlM
    (fun (d : ParsedData) arg =>
      match arg with
      | (none, _) => .ok d
      | (some key, value) =>
        if key = "action" then
          match value with
          | .vStr s => do
            let t ← normalizeActionType s
            .ok { d with actionType := some t }
          | _ => .error "Unknown action type"
        else if key = "element" then
          .ok { d with fields := dictSet d.fields "point" value }
        else if key = "start" then
          .ok { d with fields := dictSet d.fields "point1" value }
        else if key = "end" then
          .ok { d with fields := dictSet d.fields "point2" value }
        else if key = "text" then
          .ok { d with fields := dictSet d.fields "value" value }
        else if key = "app" then
          .ok { d with fields := dictSet d.fields "value" value }
        else if key = "duration" then
          .ok { d with fields := dictSet d.fields "value" value }
        else if key = "message" then
          let d :=
            if d.actionType.isNone then { d with actionType := some .COMPLETE }
            else d
          .ok { d with fields := dictSet d.fields "return" value }
        else
          .ok { d with fields := dictSet d.fields key value })
    { actionType := none, fields := [] }

/-- `ActionParser._parse_function_call`: the `finish(` shortcut, the Type
text shortcut, then the literal-call path. -/
def parseFunctionCall (raw : String) : Except String Action :=
  let response := pyStrip raw
  if "finish(".toList.isPrefixOf response.toList then
    let message := (searchMessageVal response.toList).getD ""
    .ok { actionType := .COMPLETE, thinking := "", explanation := "",
          summary := "", params := [("return", .vStr message)] }
  else
    let typeShortcut : Option Action :=
      if strContains response "action=\"Type\"" ||
         strContains response "action=\"Type_Name\"" then
        (searchTextVal response.toList).map fun text =>
          { actionType := .TYPE, thinking := "", explanation := "",
            summary := "", params := [("value", .vStr text)] }
      else none
    match typeShortcut with
    | some a => .ok a
    | none =>
      match pyCallParse response with
      | none => .error "Failed to parse function call"
      | some (_, args) => do
        let d ← applyCallKeywords args
        .ok (buildAction d)

/-- `ActionParser.parse`: strip, try the `finish(message=` marker, then the
`do(action=` marker (each only returns when a balanced call is extracted),
otherwise fall back to the tab format. -/
def parseResponse (rawResponse : String) : Except String Action :=
  let response := pyStrip rawResponse
  let tryMarker (marker : String) : Option (Except String Action) :=
    if strContains response marker then
      let thinking := pyStrip (pySplitGet0 response marker)
      match extractBalancedCall response marker with
      | some fullCall =>
          some (do
            let a ← parseFunctionCall fullCall
            .ok (if thinking ≠ "" then { a with thinking := thinking } else a))
      | none => none
    else none
  match tryMarker "finish(message=" with
  | some r => r
  | none =>
    match tryMarker "do(action=" with
    | some r => r
    | none => parseTabFormat response

/-- Tab-format rendering of one parameter value (`",".join` for lists). -/
def tabValueStr : PValue → String
  | .vInts l => String.intercalate "," (l.map toString)
  | .vStr s => s
  | .vInt n => toString n

/-- `ActionParser._to_tab_string`. -/
def toTabString (a : Action) : String :=
  let thinkParts : List String :=
    if a.thinking ≠ "" then ["<THINK>" ++ a.thinking ++ "</THINK>"] else []
  let kvParts : List String :=
    (if a.explanation ≠ "" then ["explain:" ++ a.explanation] else []) ++
    ["action:" ++ a.actionType.toCode] ++
    a.params.map (fun p => p.1 ++ ":" ++ tabValueStr p.2) ++
    (if a.summary ≠ "" then ["summary:" ++ a.summary] else [])
  String.intercalate "\n" (thinkParts ++ [String.intercalate "\t" kvParts])

/-- The serializer-side `action_name_map` of `_to_function_string`; the
`COMPLETE` and `ABORT` entries are present and map to `None`. -/
def serializeNameMap : ActionType → Option (Option String)
  | .CLICK => some (some "Tap")
  | .DOUBLE_TAP => some (some "Double Tap")
  | .LONG_PRESS => some (some "Long Press")
  | .SWIPE => some (some "Swipe")
  | .TYPE => some (some "Type")
  | .BACK => some (some "Back")
  | .HOME => some (some "Home")
  | .LAUNCH => some (some "Launch")
  | .WAIT => some (some "Wait")
  | .INFO => some (some "Interact")
  | .COMPLETE => some none
  | .ABORT => some none
  | _ => none

/-- `ActionParser._to_function_string`. -/
def toFunctionString (a : Action) : String :=
  if a.actionType = ActionType.COMPLETE then
    let msg := (dictGet a.params "return").getD (.vStr "Task completed")
    "finish(message=\"" ++ pvalueToStr msg ++ "\")"
  else
    let actionName : String :=
      match serializeNameMap a.actionType with
      | some (some s) => s
      | some none => "None"
      | none => a.actionType.toCode
    let part (k : String) (render : PValue → String) : List String :=
      match dictGet a.params k with
      | some v => [render v]
      | none => []
    let valuePart : List String :=
      match dictGet a.params "value" with
      | some v =>
        if a.actionType = ActionType.TYPE then
          ["text=\"" ++ pvalueToStr v ++ "\""]
        else if a.actionType = ActionType.LAUNCH then
          ["app=\"" ++ pvalueToStr v ++ "\""]
        else
          ["value=\"" ++ pvalueToStr v ++ "\""]
      | none => []
    let paramParts : List String :=
      ["action=\"" ++ actionName ++ "\""] ++
      part "point" (fun v => "element=" ++ pvalueToStr v) ++
      part "point1" (fun v => "start=" ++ pvalueToStr v) ++
      part "point2" (fun v => "end=" ++ pvalueToStr v) ++
      valuePart
    "do(" ++ String.intercalate ", " paramParts ++ ")"

/-- `ActionParser.to_string(action, format)`. -/
def actionToString (a : Action) (format : String) : String :=
  if format = "function" then toFunctionString a else toTabString a

/-- Point-parameter well-formedness as `ActionSpace.validate` checks it, as
a decidable predicate over a parameter map: every point-named value present
passes `checkOnePoint`. -/
def validPointParamsB (params : List (String × PValue)) : Bool :=
  (["point", "point1", "point2"] : List String).all fun name =>
    match dictGet params name with
    | some v => (checkOnePoint name v).isNone
    | none => true

/-- A malformed point list in the sense of the validation code: wrong arity
or a coordinate outside `[0, 1000]`. -/
def badPointList (l : List Int) : Prop :=
  l.length ≠ 2 ∨ ∃ c ∈ l, c < 0 ∨ 1000 < c

/-- Representative well-formed value for each parameter key of the
`ActionSpace` tables (used to instantiate the round-trip domain). -/
def sampleParamValue : String → PValue
  | "point" => .vInts [500, 300]
  | "point1" => .vInts [100, 200]
  | "point2" => .vInts [900, 800]
  | "direction" => .vStr "UP"
  | "duration" => .vStr "2"
  | "message" => .vStr "confirm"
  | "keyboard_exists" => .vStr "true"
  | "return" => .vStr "done"
  | "status" => .vStr "SUCCESS"
  | "reason" => .vStr "network"
  | _ => .vStr "hello"

/-- An action of kind `t` with the given parameter keys at their
representative values, optionally with representative text fields. -/
def mkTableAction (t : ActionType) (keys : List String) (withTexts : Bool) :
    Action :=
  { actionType := t
    thinking := if withTexts then "analysis of the screen" else ""
    explanation := if withTexts then "perform the step" else ""
    summary := if withTexts then "progressing" else ""
    params := keys.map (fun k => (k, sampleParamValue k)) }

/-- The admissible key sets per kind: the required keys plus any subset of
the optional keys; for `SWIPE` the two accepted forms of the validation
disjunction, each with and without the optional duration. -/
def tableKeyChoices (t : ActionType) : List (List String) :=
  if t = ActionType.SWIPE then
    [["point1", "point2"], ["point1", "point2", "duration"],
     ["point", "direction"], ["point", "direction", "duration"]]
  else
    (OPTIONAL_PARAMS t).sublists.map (fun opts => REQUIRED_PARAMS t ++ opts)

/-- The round-trip test domain: every action kind, every admissible key
combination, representative values, with and without text fields. -/
def tabDomain : List Action :=
  allActionTypes.flatMap fun t =>
    (tableKeyChoices t).flatMap fun keys =>
      [mkTableAction t keys false, mkTableAction t keys true]

/-- Serializing to the tab surface format and parsing back preserves the
action kind and the parameter map. -/
def tabRoundTripOk (a : Action) : Bool :=
  match parseResponse (actionToString a "tab") with
  | .ok b => decide (b.actionType = a.actionType) && decide (b.params = a.params)
  | .error _ => false

/-!
## Theorems

Helper lemmas first, then one theorem per claim (with witnesses and
counterexamples where required).
-/

/-- The cleanup loop is the filter/count pair over its predicate. -/
theorem cleanupLoop_eq (cutoff : Int) (l : List SessionState) :
    cleanupLoop cutoff l =
      (l.filter (fun s => !shouldCleanup cutoff s),
       (l.filter (shouldCleanup cutoff)).length) := by
  induction l with
  | nil => rfl
  | cons s rest ih =>
    by_cases h : shouldCleanup cutoff s
    · simp [cleanupLoop, ih, List.filter_cons, h]
    · simp [cleanupLoop, ih, List.filter_cons, h]

/-- C8: constructing a `Point` succeeds exactly when both components lie in
the closed range `[0, 1000]`; outside it, construction raises and never
yields a value. -/
theorem point_construction_range (x y : Int) :
    (Point.make x y).toOption.isSome = true ↔
      (0 ≤ x ∧ x ≤ 1000 ∧ 0 ≤ y ∧ y ≤ 1000) := by
  unfold Point.make
  split <;> simp_all [Except.toOption]

/-- C2: in the step execution, a successful parse resets the
consecutive-parse-error counter to zero and proceeds with the parsed
action; a parse failure increments the counter and, below the ceiling of 3,
substitutes a Wait action for the step, while reaching the ceiling instead
halts the step with a synthesized Abort action marked finished. -/
theorem parse_failure_counter_policy (count stepNum : Nat) (e : String)
    (a : Action) :
    handleParsedResponse (.ok a) count MAX_PARSE_ERRORS stepNum = (0, .proceed a) ∧
    (handleParsedResponse (.error e) count MAX_PARSE_ERRORS stepNum).1 = count + 1 ∧
    (count + 1 < MAX_PARSE_ERRORS →
      handleParsedResponse (.error e) count MAX_PARSE_ERRORS stepNum =
        (count + 1, .proceed (parseFailureWaitAction e))) ∧
    (count + 1 ≥ MAX_PARSE_ERRORS →
      handleParsedResponse (.error e) count MAX_PARSE_ERRORS stepNum =
        (count + 1, .halt
          { success := false
            finished := true
            action := some (parseFailureAbortAction (count + 1))
            message := "Task aborted: LLM response parsing failed repeatedly"
            stepCount := stepNum })) := by
  refine ⟨rfl, ?_, ?_, ?_⟩
  · simp only [handleParsedResponse]
    split <;> rfl
  · intro h
    simp only [MAX_PARSE_ERRORS] at h
    simp only [handleParsedResponse, MAX_PARSE_ERRORS]
    split
    · omega
    · rfl
  · intro h
    simp only [MAX_PARSE_ERRORS] at h
    simp only [handleParsedResponse, MAX_PARSE_ERRORS]
    split
    · rfl
    · omega

/-- C2 witness: at a counter of 2 the next failure reaches the ceiling and
halts with the synthesized Abort. -/
theorem parse_failure_counter_policy_witness :
    handleParsedResponse (.error "bad output") 2 MAX_PARSE_ERRORS 5 =
      (3, .halt
        { success := false
          finished := true
          action := some (parseFailureAbortAction 3)
          message := "Task aborted: LLM response parsing failed repeatedly"
          stepCount := 5 }) :=
  (parse_failure_counter_policy 2 5 "bad output"
    { actionType := .WAIT, thinking := "", explanation := "", summary := "",
      params := [] }).2.2.2 (by decide)

/-- C10: `cleanup_old_sessions` removes exactly the sessions in a terminal
status (`completed` or `aborted`) whose `updated_at` is older than the
cutoff, returns the number removed, and never removes a `running` or
`paused` session. -/
theorem cleanup_old_sessions_spec (now maxAgeHours : Int)
    (sessions : List SessionState) :
    (cleanupOldSessions now maxAgeHours sessions).1 =
      sessions.filter (fun s =>
        !(decide (s.updatedAt < now - 3600 * maxAgeHours) &&
          (s.status == "completed" || s.status == "aborted"))) ∧
    (cleanupOldSessions now maxAgeHours sessions).2 =
      (sessions.filter (fun s =>
        decide (s.updatedAt < now - 3600 * maxAgeHours) &&
          (s.status == "completed" || s.status == "aborted"))).length ∧
    ∀ s ∈ sessions, (s.status = "running" ∨ s.status = "paused") →
      s ∈ (cleanupOldSessions now maxAgeHours sessions).1 := by
  have he : cleanupOldSessions now maxAgeHours sessions =
      (sessions.filter (fun s => !shouldCleanup (now - 3600 * maxAgeHours) s),
       (sessions.filter (shouldCleanup (now - 3600 * maxAgeHours))).length) :=
    cleanupLoop_eq _ _
  refine ⟨by rw [he] ; rfl, by rw [he] ; rfl, ?_⟩
  intro s hs hstat
  rw [he]
  simp only [List.mem_filter]
  refine ⟨hs, ?_⟩
  rcases hstat with h | h <;> simp [shouldCleanup, h]

/-- C10 witness: on a mixed list, exactly the old terminal session is
removed, the running and paused ones survive. -/
theorem cleanup_old_sessions_spec_witness :
    (cleanupOldSessions 100000 24
      [{ sessionId := "a", task := "t1", status := "completed",
         createdAt := 0, updatedAt := 0, stepCount := 3 },
       { sessionId := "b", task := "t2", status := "running",
         createdAt := 0, updatedAt := 0, stepCount := 1 },
       { sessionId := "c", task := "t3", status := "paused",
         createdAt := 0, updatedAt := 0, stepCount := 2 }]).2 = 1 ∧
    ({ sessionId := "b", task := "t2", status := "running",
       createdAt := 0, updatedAt := 0, stepCount := 1 } : SessionState) ∈
      (cleanupOldSessions 100000 24
        [{ sessionId := "a", task := "t1", status := "completed",
           createdAt := 0, updatedAt := 0, stepCount := 3 },
         { sessionId := "b", task := "t2", status := "running",
           createdAt := 0, updatedAt := 0, stepCount := 1 },
         { sessionId := "c", task := "t3", status := "paused",
           createdAt := 0, updatedAt := 0, stepCount := 2 }]).1 := by
  constructor
  · rw [(cleanup_old_sessions_spec 100000 24 _).2.1]
    decide
  · exact (cleanup_old_sessions_spec 100000 24 _).2.2
      { sessionId := "b", task := "t2", status := "running",
        createdAt := 0, updatedAt := 0, stepCount := 1 }
      (by decide) (Or.inl rfl)

/-- C7 counterexample: when the LLM call raises, `_decompose_with_llm`
falls back to a plan with a single generic sub-task, not the two-step
"start" / "complete" plan the claim describes. -/
theorem llm_fallback_counterexample :
    (decomposeWithLlm "查询天气" (.error "connection error")
      (fun _ => none)).subTasks.length = 1 ∧
    ¬ (decomposeWithLlm "查询天气" (.error "connection error")
      (fun _ => none)).subTasks.length = 2 := by
  decide

/-- C7 (amended): every failure on the LLM decomposition path — an
exception from the LLM call, a response with no `[`, or a JSON load
failure on the extracted slice — yields the generic single-step fallback
plan (one sub-task, description `执行任务`); the two-step plan belongs to
`create_plan`'s no-template fallback instead. -/
theorem llm_fallback_amended :
    (∀ (task err : String) (dec : String → Option (List SubTaskRec)),
      decomposeWithLlm task (.error err) dec = llmFallbackPlan task) ∧
    (∀ (task content : String) (dec : String → Option (List SubTaskRec)),
      strFindIdx content '[' = none →
      decomposeWithLlm task (.ok content) dec = llmFallbackPlan task) ∧
    (∀ (task content : String) (dec : String → Option (List SubTaskRec))
       (i : Nat),
      strFindIdx content '[' = some i →
      dec (pySlice content i
        (match strRFindIdx content ']' with | some j => j + 1 | none => 0)) = none →
      decomposeWithLlm task (.ok content) dec = llmFallbackPlan task) ∧
    (∀ task : String,
      (llmFallbackPlan task).subTasks.map (fun st => st.description) = ["执行任务"]) := by
  refine ⟨fun _ _ _ => rfl, ?_, ?_, fun _ => rfl⟩
  · intro task content dec h
    simp only [decomposeWithLlm, h]
  · intro task content dec i h hdec
    simp only [decomposeWithLlm, h, hdec]

/-- C7 witness: a prose-only response without any JSON brackets produces
the single-step fallback plan. -/
theorem llm_fallback_amended_witness :
    decomposeWithLlm "发送消息" (.ok "抱歉，我无法分解这个任务。")
      (fun _ => none) = llmFallbackPlan "发送消息" :=
  llm_fallback_amended.2.1 "发送消息" "抱歉，我无法分解这个任务。"
    (fun _ => none) (by decide)

/-- A present current sub-task means `current_step` is a valid index. -/
theorem currentSubTask_some_bounds (p : TaskPlan) (st : SubTask)
    (h : p.currentSubTask = some st) :
    0 ≤ p.currentStep ∧ p.currentStep < p.subTasks.length := by
  unfold TaskPlan.currentSubTask at h
  split at h
  · assumption
  · exact absurd h (by simp)

/-- Under the step invariant, an absent current sub-task means the plan is
done (`current_step` at the length). -/
theorem currentSubTask_none_done (p : TaskPlan) (hInv : p.stepInvariant)
    (h : p.currentSubTask = none) :
    p.currentStep = p.subTasks.length := by
  obtain ⟨h0, hle⟩ := hInv
  unfold TaskPlan.currentSubTask at h
  split at h
  · next hc =>
    rw [List.get?_eq_none] at h
    omega
  · next hc =>
    push_neg at hc
    have := hc h0
    omega

/-- Python `list.insert` always grows the list by one element. -/
theorem length_pyListInsert (l : List SubTask) (i : Int) (a : SubTask) :
    (pyListInsert l i a).length = l.length + 1 := by
  simp only [pyListInsert, List.length_append, List.length_cons,
    List.length_take, List.length_drop]
  split <;> omega

/-- Renumbering does not change the number of sub-tasks. -/
theorem length_renumberSteps (l : List SubTask) :
    (renumberSteps l).length = l.length := by
  simp [renumberSteps, List.enum_length]

/-- C9: each mutating plan operation preserves
`0 <= current_step <= len(sub_tasks)`, and `mark_current_complete` at or past
the final sub-task index leaves `current_step` at the length without
raising. -/
theorem task_plan_step_invariant (p : TaskPlan) (h : p.stepInvariant)
    (reason desc : String) (verification : Option String)
    (position : Option Int) :
    (p.markCurrentComplete).stepInvariant ∧
    (p.markCurrentFailed reason).stepInvariant ∧
    (p.skipCurrent reason).stepInvariant ∧
    (p.insertStep desc verification position).stepInvariant ∧
    ((p.subTasks.length : Int) - 1 ≤ p.currentStep →
      (p.markCurrentComplete).currentStep = (p.subTasks.length : Int)) := by
  obtain ⟨h0, hle⟩ := h
  refine ⟨?_, ?_, ?_, ?_, ?_⟩
  · cases hc : p.currentSubTask with
    | none =>
      simp only [TaskPlan.markCurrentComplete, hc]
      exact ⟨h0, hle⟩
    | some st =>
      obtain ⟨hb0, hblt⟩ := currentSubTask_some_bounds p st hc
      simp only [TaskPlan.markCurrentComplete, hc, TaskPlan.stepInvariant,
        List.length_set]
      omega
  · cases hc : p.currentSubTask with
    | none =>
      simp only [TaskPlan.markCurrentFailed, hc]
      exact ⟨h0, hle⟩
    | some st =>
      simp only [TaskPlan.markCurrentFailed, hc, TaskPlan.stepInvariant,
        List.length_set]
      omega
  · cases hc : p.currentSubTask with
    | none =>
      simp only [TaskPlan.skipCurrent, hc]
      exact ⟨h0, hle⟩
    | some st =>
      obtain ⟨hb0, hblt⟩ := currentSubTask_some_bounds p st hc
      simp only [TaskPlan.skipCurrent, hc, TaskPlan.stepInvariant,
        List.length_set]
      omega
  · simp only [TaskPlan.insertStep, TaskPlan.stepInvariant,
      length_renumberSteps, length_pyListInsert]
    omega
  · intro hend
    cases hc : p.currentSubTask with
    | none =>
      have := currentSubTask_none_done p ⟨h0, hle⟩ hc
      simp only [TaskPlan.markCurrentComplete, hc]
      omega
    | some st =>
      obtain ⟨hb0, hblt⟩ := currentSubTask_some_bounds p st hc
      simp only [TaskPlan.markCurrentComplete, hc]
      omega

/-- C9 witness: completing at the final index of a concrete two-step plan
leaves `current_step` at the length, and the other operations keep the
invariant. -/
theorem task_plan_step_invariant_witness :
    (TaskPlan.markCurrentComplete
      { originalTask := "demo"
        subTasks :=
          [{ id := 1, description := "open", status := .completed,
             appTarget := none, verification := none },
           { id := 2, description := "send", status := .inProgress,
             appTarget := none, verification := none }]
        currentStep := 1
        executionNotes := []
        replannedCount := 0 }).currentStep = 2 ∧
    (TaskPlan.insertStep
      { originalTask := "demo"
        subTasks :=
          [{ id := 1, description := "open", status := .completed,
             appTarget := none, verification := none },
           { id := 2, description := "send", status := .inProgress,
             appTarget := none, verification := none }]
        currentStep := 1
        executionNotes := []
        replannedCount := 0 } "unlock first" none none).stepInvariant := by
  constructor
  · have := (task_plan_step_invariant
      { originalTask := "demo"
        subTasks :=
          [{ id := 1, description := "open", status := .completed,
             appTarget := none, verification := none },
           { id := 2, description := "send", status := .inProgress,
             appTarget := none, verification := none }]
        currentStep := 1
        executionNotes := []
        replannedCount := 0 } ⟨by decide, by decide⟩ "r" "unlock first" none
        none).2.2.2.2 (by decide)
    simpa using this
  · exact (task_plan_step_invariant
      { originalTask := "demo"
        subTasks :=
          [{ id := 1, description := "open", status := .completed,
             appTarget := none, verification := none },
           { id := 2, description := "send", status := .inProgress,
             appTarget := none, verification := none }]
        currentStep := 1
        executionNotes := []
        replannedCount := 0 } ⟨by decide, by decide⟩ "r" "unlock first" none
        none).2.2.2.1

/-- C3: for a Swipe action whose point-valued parameters (if present) pass
the coordinate check, validation succeeds exactly when the parameters
contain both `point1` and `point2`, or both `point` and `direction`; every
other combination is rejected. -/
theorem swipe_validation_disjunction (a : Action)
    (hS : a.actionType = ActionType.SWIPE)
    (hP : validPointParamsB a.params = true) :
    ((validate a).1 = true ↔
      ((dictContains a.params "point1" = true ∧
        dictContains a.params "point2" = true) ∨
       (dictContains a.params "point" = true ∧
        dictContains a.params "direction" = true))) := by
  have hreq : checkRequired a.actionType a.params = none := by
    rw [hS]; rfl
  have hpts : checkPoints a.params = none := by
    unfold checkPoints
    rw [List.findSome?_eq_none_iff]
    intro name hname
    unfold validPointParamsB at hP
    rw [List.all_eq_true] at hP
    have hn := hP name hname
    cases hd : dictGet a.params name with
    | none => simp
    | some v =>
      rw [hd] at hn
      simp only [Option.isNone_iff_eq_none] at hn
      simpa using hn
  unfold validate
  rw [hreq, hpts, hS]
  cases h1 : dictContains a.params "point1" <;>
    cases h2 : dictContains a.params "point2" <;>
    cases h3 : dictContains a.params "point" <;>
    cases h4 : dictContains a.params "direction" <;>
    simp

/-- C3 witness: the four concrete combinations from the spec at
representative point values. -/
theorem swipe_validation_disjunction_witness :
    (validate (mkTableAction .SWIPE ["point1", "point2"] false)).1 = true ∧
    (validate (mkTableAction .SWIPE ["point", "direction"] false)).1 = true ∧
    (validate (mkTableAction .SWIPE ["point1"] false)).1 = false ∧
    (validate (mkTableAction .SWIPE ["point", "point1"] false)).1 = false := by
  have h12 := swipe_validation_disjunction
    (mkTableAction .SWIPE ["point1", "point2"] false) rfl (by decide)
  have hpd := swipe_validation_disjunction
    (mkTableAction .SWIPE ["point", "direction"] false) rfl (by decide)
  have h1 := swipe_validation_disjunction
    (mkTableAction .SWIPE ["point1"] false) rfl (by decide)
  have hmix := swipe_validation_disjunction
    (mkTableAction .SWIPE ["point", "point1"] false) rfl (by decide)
  refine ⟨h12.mpr (by decide), hpd.mpr (by decide), ?_, ?_⟩
  · cases hb : (validate (mkTableAction .SWIPE ["point1"] false)).1 with
    | false => rfl
    | true => exact absurd (h1.mp hb) (by decide)
  · cases hb : (validate (mkTableAction .SWIPE ["point", "point1"] false)).1 with
    | false => rfl
    | true => exact absurd (hmix.mp hb) (by decide)

/-- C6 counterexample: a Click whose `point` parameter is the string
`"bogus"` — not a 2-element integer sequence — still validates true,
because the validation only inspects list-shaped point values. -/
theorem point_validation_claim_counterexample :
    dictGet
      (Action.params
        { actionType := .CLICK, thinking := "", explanation := "",
          summary := "",
          params := [("point", .vStr "bogus")] }) "point" =
      some (.vStr "bogus") ∧
    validate
      { actionType := .CLICK, thinking := "", explanation := "",
        summary := "",
        params := [("point", .vStr "bogus")] } = (true, "") := by
  decide

/-- Any occurrence of `n` inside a character list is found. -/
theorem findSubIdx_isSome_append (pre n post : List Char) :
    (findSubIdx (pre ++ (n ++ post)) n).isSome = true := by
  induction pre with
  | nil =>
    unfold findSubIdx
    rw [if_pos]
    · rfl
    · rw [List.isPrefixOf_iff_prefix]
      exact List.prefix_append n post
  | cons c t ih =>
    unfold findSubIdx
    split
    · rfl
    · simpa using ih

/-- A string built around `name` contains `name`. -/
theorem strContains_around (x name y : String) :
    strContains (x ++ name ++ y) name = true := by
  unfold strContains
  have : (x ++ name ++ y).toList = x.toList ++ (name.toList ++ y.toList) := by
    simp
  rw [this]
  exact findSubIdx_isSome_append x.toList name.toList y.toList

/-- A point value passing `checkOnePoint` has exactly two in-range
coordinates. -/
theorem checkOnePoint_vInts_none (name : String) (l : List Int)
    (h : checkOnePoint name (.vInts l) = none) :
    l.length = 2 ∧ ∀ c ∈ l, 0 ≤ c ∧ c ≤ 1000 := by
  simp only [checkOnePoint] at h
  split at h
  · exact absurd h (by simp)
  · next hlen =>
    split at h
    · exact absurd h (by simp)
    · next hall =>
      have hall2 : (l.all fun c => decide (0 ≤ c) && decide (c ≤ 1000)) = true := by
        cases hb : (l.all fun c => decide (0 ≤ c) && decide (c ≤ 1000)) with
        | true => rfl
        | false => exact absurd (by rw [hb] ; rfl) hall
      rw [List.all_eq_true] at hall2
      refine ⟨by omega, ?_⟩
      intro c hc
      have := hall2 c hc
      simp only [Bool.and_eq_true, decide_eq_true_eq] at this
      exact this

/-- C6 (amended): a point-valued parameter that is a list of the wrong
arity or with an out-of-range coordinate always makes validation fail, and
when the point check itself produces the error, its message names the
offending parameter; a non-list point value, however, is not inspected at
all (see the counterexample). -/
theorem point_validation_amended :
    (∀ (a : Action) (name : String) (l : List Int),
      name ∈ (["point", "point1", "point2"] : List String) →
      dictGet a.params name = some (.vInts l) →
      badPointList l →
      (validate a).1 = false) ∧
    (∀ (name : String) (v : PValue) (e : String),
      checkOnePoint name v = some e → strContains e name = true) := by
  constructor
  · intro a name l hmem hget hbad
    have hsome : checkPoints a.params ≠ none := by
      intro hnone
      rw [checkPoints, List.findSome?_eq_none_iff] at hnone
      have hx := hnone name hmem
      simp only [hget] at hx
      have hgood := checkOnePoint_vInts_none name l hx
      rcases hbad with hlen | ⟨c, hc, hout⟩
      · exact hlen hgood.1
      · have := hgood.2 c hc
        omega
    cases hb : (validate a).1 with
    | false => rfl
    | true =>
      have hnone : checkPoints a.params = none := by
        unfold validate at hb
        split at hb
        · exact absurd hb (by simp)
        · split at hb
          · simp [apply_ite] at hb
          · assumption
      exact absurd hnone hsome
  · intro name v e h
    cases v with
    | vStr s => exact absurd h (by simp [checkOnePoint])
    | vInt n => exact absurd h (by simp [checkOnePoint])
    | vInts l =>
      simp only [checkOnePoint] at h
      split at h
      · have he := Option.some.inj h
        rw [← he]
        exact strContains_around "Point " name " must have 2 coordinates"
      · split at h
        · have he := Option.some.inj h
          rw [← he]
          exact strContains_around "Point " name
            " coordinates must be integers in [0, 1000]"
        · exact absurd h (by simp)

/-- C6 witness: a 3-element point list invalidates a Click, and out-of-range
coordinates produce a message naming the parameter. -/
theorem point_validation_amended_witness :
    (validate
      { actionType := .CLICK, thinking := "", explanation := "",
        summary := "",
        params := [("point", .vInts [1, 2, 3])] }).1 = false ∧
    strContains
      ((checkOnePoint "point1" (.vInts [5000, 0])).getD "") "point1" = true := by
  constructor
  · exact point_validation_amended.1
      { actionType := .CLICK, thinking := "", explanation := "",
        summary := "", params := [("point", .vInts [1, 2, 3])] }
      "point" [1, 2, 3] (by decide) (by decide) (Or.inl (by decide))
  · exact point_validation_amended.2 "point1" (.vInts [5000, 0])
      "Point point1 coordinates must be integers in [0, 1000]" (by decide)

/-- A slice `entries[-n:]` only depends on the last `n` entries. -/
theorem takeLast_append_of_le (l1 l2 : List HistoryEntry) (n : Nat)
    (h : n ≤ l2.length) : takeLast (l1 ++ l2) n = takeLast l2 n := by
  unfold takeLast
  rw [List.length_append]
  have he : l1.length + l2.length - n = l1.length + (l2.length - n) := by omega
  rw [he, List.drop_append]

/-- `check_loop` on at least two entries is the ordered first-match of the
three heuristics. -/
theorem checkLoop_eval (d : LoopDetector) (entries : List HistoryEntry)
    (h : 2 ≤ entries.length) :
    checkLoop d entries =
      (match checkSameKindRun d entries with
       | some r => r
       | none =>
         match checkAlternation entries with
         | some r => r
         | none =>
           match checkExactRepeat d entries with
           | some r => r
           | none => (false, "")) := by
  unfold checkLoop
  rw [if_neg (by omega)]

/-- C4 (amended): a history ending in 4 identical Clicks at (500,500) flags
a loop via the same-position-click heuristic — whose message does not carry
a repeat count — and a history ending in 3 Clicks at (500,500), (520,510),
(480,490), all within the 50-unit tolerance, flags the same way. -/
theorem click_loop_detection_amended :
    (∀ (pre : List HistoryEntry) (a : Action) (s1 s2 s3 s4 : Nat)
       (o1 o2 o3 o4 : String),
      a.actionType = ActionType.CLICK →
      dictGet a.params "point" = some (.vInts [500, 500]) →
      checkLoop defaultLoopDetector
        (pre ++ [⟨s1, a, o1⟩, ⟨s2, a, o2⟩, ⟨s3, a, o3⟩, ⟨s4, a, o4⟩]) =
        (true, "多次点击同一位置无效，UI 可能没有响应，请尝试不同位置或操作")) ∧
    (∀ (pre : List HistoryEntry) (a1 a2 a3 : Action) (s1 s2 s3 : Nat)
       (o1 o2 o3 : String),
      a1.actionType = ActionType.CLICK →
      a2.actionType = ActionType.CLICK →
      a3.actionType = ActionType.CLICK →
      dictGet a1.params "point" = some (.vInts [500, 500]) →
      dictGet a2.params "point" = some (.vInts [520, 510]) →
      dictGet a3.params "point" = some (.vInts [480, 490]) →
      checkLoop defaultLoopDetector
        (pre ++ [⟨s1, a1, o1⟩, ⟨s2, a2, o2⟩, ⟨s3, a3, o3⟩]) =
        (true, "多次点击同一位置无效，UI 可能没有响应，请尝试不同位置或操作")) := by
  constructor
  · intro pre a s1 s2 s3 s4 o1 o2 o3 o4 hT hP
    have hrun : checkSameKindRun defaultLoopDetector
        (pre ++ [⟨s1, a, o1⟩, ⟨s2, a, o2⟩, ⟨s3, a, o3⟩, ⟨s4, a, o4⟩]) =
        some (true, "多次点击同一位置无效，UI 可能没有响应，请尝试不同位置或操作") := by
      unfold checkSameKindRun
      rw [takeLast_append_of_le _ _ _ (by simp [defaultLoopDetector])]
      simp [takeLast, defaultLoopDetector, hT, hP, arePointsSimilar,
        PValue.truthy]
    rw [checkLoop_eval _ _ (by simp), hrun]
  · intro pre a1 a2 a3 s1 s2 s3 o1 o2 o3 hT1 hT2 hT3 hP1 hP2 hP3
    have hrun : checkSameKindRun defaultLoopDetector
        (pre ++ [⟨s1, a1, o1⟩, ⟨s2, a2, o2⟩, ⟨s3, a3, o3⟩]) =
        some (true, "多次点击同一位置无效，UI 可能没有响应，请尝试不同位置或操作") := by
      unfold checkSameKindRun
      rw [takeLast_append_of_le _ _ _ (by simp [defaultLoopDetector])]
      simp [takeLast, defaultLoopDetector, hT1, hT2, hT3, hP1, hP2, hP3,
        arePointsSimilar, PValue.truthy]
    rw [checkLoop_eval _ _ (by simp), hrun]

/-- C4 witness: the two concrete histories of the claim, with steps 1..4
and empty observations, both flag the loop. -/
theorem click_loop_detection_amended_witness :
    checkLoop defaultLoopDetector
      [⟨1, { actionType := .CLICK, thinking := "", explanation := "",
             summary := "", params := [("point", .vInts [500, 500])] }, ""⟩,
       ⟨2, { actionType := .CLICK, thinking := "", explanation := "",
             summary := "", params := [("point", .vInts [500, 500])] }, ""⟩,
       ⟨3, { actionType := .CLICK, thinking := "", explanation := "",
             summary := "", params := [("point", .vInts [500, 500])] }, ""⟩,
       ⟨4, { actionType := .CLICK, thinking := "", explanation := "",
             summary := "", params := [("point", .vInts [500, 500])] }, ""⟩] =
      (true, "多次点击同一位置无效，UI 可能没有响应，请尝试不同位置或操作") ∧
    checkLoop defaultLoopDetector
      [⟨1, { actionType := .CLICK, thinking := "", explanation := "",
             summary := "", params := [("point", .vInts [500, 500])] }, ""⟩,
       ⟨2, { actionType := .CLICK, thinking := "", explanation := "",
             summary := "", params := [("point", .vInts [520, 510])] }, ""⟩,
       ⟨3, { actionType := .CLICK, thinking := "", explanation := "",
             summary := "", params := [("point", .vInts [480, 490])] }, ""⟩] =
      (true, "多次点击同一位置无效，UI 可能没有响应，请尝试不同位置或操作") := by
  constructor
  · exact click_loop_detection_amended.1 []
      { actionType := .CLICK, thinking := "", explanation := "",
        summary := "", params := [("point", .vInts [500, 500])] }
      1 2 3 4 "" "" "" "" rfl rfl
  · exact click_loop_detection_amended.2 []
      { actionType := .CLICK, thinking := "", explanation := "",
        summary := "", params := [("point", .vInts [500, 500])] }
      { actionType := .CLICK, thinking := "", explanation := "",
        summary := "", params := [("point", .vInts [520, 510])] }
      { actionType := .CLICK, thinking := "", explanation := "",
        summary := "", params := [("point", .vInts [480, 490])] }
      1 2 3 "" "" "" rfl rfl rfl rfl rfl rfl

/-- C4 counterexample: on the 4-identical-click history the claim promises
a repeat count in the message, but the heuristic that fires reports the
fixed same-position warning, which contains no digit at all. -/
theorem click_loop_message_counterexample :
    (checkLoop defaultLoopDetector
      [⟨1, { actionType := .CLICK, thinking := "", explanation := "",
             summary := "", params := [("point", .vInts [500, 500])] }, ""⟩,
       ⟨2, { actionType := .CLICK, thinking := "", explanation := "",
             summary := "", params := [("point", .vInts [500, 500])] }, ""⟩,
       ⟨3, { actionType := .CLICK, thinking := "", explanation := "",
             summary := "", params := [("point", .vInts [500, 500])] }, ""⟩,
       ⟨4, { actionType := .CLICK, thinking := "", explanation := "",
             summary := "", params := [("point", .vInts [500, 500])] }, ""⟩]).1 =
      true ∧
    ((checkLoop defaultLoopDetector
      [⟨1, { actionType := .CLICK, thinking := "", explanation := "",
             summary := "", params := [("point", .vInts [500, 500])] }, ""⟩,
       ⟨2, { actionType := .CLICK, thinking := "", explanation := "",
             summary := "", params := [("point", .vInts [500, 500])] }, ""⟩,
       ⟨3, { actionType := .CLICK, thinking := "", explanation := "",
             summary := "", params := [("point", .vInts [500, 500])] }, ""⟩,
       ⟨4, { actionType := .CLICK, thinking := "", explanation := "",
             summary := "", params := [("point", .vInts [500, 500])] }, ""⟩]).2.toList.all
      (fun c => !c.isDigit)) = true := by
  decide

/-- C5: a history ending in the kinds Back, Click, Back, Click flags the
alternation heuristic with its A-B message, while Back, Click, Home, Click
fires no heuristic at all. -/
theorem alternation_loop_detection :
    (∀ (pre : List HistoryEntry) (a1 a2 a3 a4 : Action) (s1 s2 s3 s4 : Nat)
       (o1 o2 o3 o4 : String),
      a1.actionType = ActionType.BACK →
      a2.actionType = ActionType.CLICK →
      a3.actionType = ActionType.BACK →
      a4.actionType = ActionType.CLICK →
      checkLoop defaultLoopDetector
        (pre ++ [⟨s1, a1, o1⟩, ⟨s2, a2, o2⟩, ⟨s3, a3, o3⟩, ⟨s4, a4, o4⟩]) =
        (true, "检测到 BACK-CLICK 交替循环，请换一种方法")) ∧
    (∀ (pre : List HistoryEntry) (a1 a2 a3 a4 : Action) (s1 s2 s3 s4 : Nat)
       (o1 o2 o3 o4 : String),
      a1.actionType = ActionType.BACK →
      a2.actionType = ActionType.CLICK →
      a3.actionType = ActionType.HOME →
      a4.actionType = ActionType.CLICK →
      checkLoop defaultLoopDetector
        (pre ++ [⟨s1, a1, o1⟩, ⟨s2, a2, o2⟩, ⟨s3, a3, o3⟩, ⟨s4, a4, o4⟩]) =
        (false, "")) := by
  constructor
  · intro pre a1 a2 a3 a4 s1 s2 s3 s4 o1 o2 o3 o4 h1 h2 h3 h4
    have hrun : checkSameKindRun defaultLoopDetector
        (pre ++ [⟨s1, a1, o1⟩, ⟨s2, a2, o2⟩, ⟨s3, a3, o3⟩, ⟨s4, a4, o4⟩]) =
        none := by
      unfold checkSameKindRun
      rw [takeLast_append_of_le _ _ _ (by simp [defaultLoopDetector])]
      simp [takeLast, defaultLoopDetector, h2, h3, h4]
    have halt : checkAlternation
        (pre ++ [⟨s1, a1, o1⟩, ⟨s2, a2, o2⟩, ⟨s3, a3, o3⟩, ⟨s4, a4, o4⟩]) =
        some (true, "检测到 BACK-CLICK 交替循环，请换一种方法") := by
      unfold checkAlternation
      rw [if_pos (by simp), takeLast_append_of_le _ _ _ (by simp)]
      simp [takeLast, h1, h2, h3, h4, ActionType.toCode]
    rw [checkLoop_eval _ _ (by simp), hrun, halt]
  · intro pre a1 a2 a3 a4 s1 s2 s3 s4 o1 o2 o3 o4 h1 h2 h3 h4
    have hrun : checkSameKindRun defaultLoopDetector
        (pre ++ [⟨s1, a1, o1⟩, ⟨s2, a2, o2⟩, ⟨s3, a3, o3⟩, ⟨s4, a4, o4⟩]) =
        none := by
      unfold checkSameKindRun
      rw [takeLast_append_of_le _ _ _ (by simp [defaultLoopDetector])]
      simp [takeLast, defaultLoopDetector, h2, h3, h4]
    have halt : checkAlternation
        (pre ++ [⟨s1, a1, o1⟩, ⟨s2, a2, o2⟩, ⟨s3, a3, o3⟩, ⟨s4, a4, o4⟩]) =
        none := by
      unfold checkAlternation
      rw [if_pos (by simp), takeLast_append_of_le _ _ _ (by simp)]
      simp [takeLast, h1, h2, h3, h4]
    have hrep : checkExactRepeat defaultLoopDetector
        (pre ++ [⟨s1, a1, o1⟩, ⟨s2, a2, o2⟩, ⟨s3, a3, o3⟩, ⟨s4, a4, o4⟩]) =
        none := by
      unfold checkExactRepeat
      rw [List.reverse_append]
      simp [actionsIdentical, h3, h4]
    rw [checkLoop_eval _ _ (by simp), hrun, halt, hrep]

/-- C5 witness: concrete Back/Click and Back/Click/Home histories with
empty parameter maps behave as the claim states. -/
theorem alternation_loop_detection_witness :
    checkLoop defaultLoopDetector
      [⟨1, { actionType := .BACK, thinking := "", explanation := "",
             summary := "", params := [] }, ""⟩,
       ⟨2, { actionType := .CLICK, thinking := "", explanation := "",
             summary := "", params := [("point", .vInts [10, 20])] }, ""⟩,
       ⟨3, { actionType := .BACK, thinking := "", explanation := "",
             summary := "", params := [] }, ""⟩,
       ⟨4, { actionType := .CLICK, thinking := "", explanation := "",
             summary := "", params := [("point", .vInts [10, 20])] }, ""⟩] =
      (true, "检测到 BACK-CLICK 交替循环，请换一种方法") ∧
    checkLoop defaultLoopDetector
      [⟨1, { actionType := .BACK, thinking := "", explanation := "",
             summary := "", params := [] }, ""⟩,
       ⟨2, { actionType := .CLICK, thinking := "", explanation := "",
             summary := "", params := [("point", .vInts [10, 20])] }, ""⟩,
       ⟨3, { actionType := .HOME, thinking := "", explanation := "",
             summary := "", params := [] }, ""⟩,
       ⟨4, { actionType := .CLICK, thinking := "", explanation := "",
             summary := "", params := [("point", .vInts [10, 20])] }, ""⟩] =
      (false, "") := by
  constructor
  · exact alternation_loop_detection.1 []
      { actionType := .BACK, thinking := "", explanation := "",
        summary := "", params := [] }
      { actionType := .CLICK, thinking := "", explanation := "",
        summary := "", params := [("point", .vInts [10, 20])] }
      { actionType := .BACK, thinking := "", explanation := "",
        summary := "", params := [] }
      { actionType := .CLICK, thinking := "", explanation := "",
        summary := "", params := [("point", .vInts [10, 20])] }
      1 2 3 4 "" "" "" "" rfl rfl rfl rfl
  · exact alternation_loop_detection.2 []
      { actionType := .BACK, thinking := "", explanation := "",
        summary := "", params := [] }
      { actionType := .CLICK, thinking := "", explanation := "",
        summary := "", params := [("point", .vInts [10, 20])] }
      { actionType := .HOME, thinking := "", explanation := "",
        summary := "", params := [] }
      { actionType := .CLICK, thinking := "", explanation := "",
        summary := "", params := [("point", .vInts [10, 20])] }
      1 2 3 4 "" "" "" "" rfl rfl rfl rfl

set_option maxRecDepth 40000 in
/-- C1 counterexample: a Click that validates true and carries its optional
`message` parameter serializes in the function-call format without the
message (`_to_function_string` only emits point/point1/point2/value), so
parsing the serialization back yields the same kind but a strictly smaller
parameter set. -/
theorem round_trip_function_counterexample :
    (validate
      { actionType := .CLICK, thinking := "", explanation := "",
        summary := "",
        params := [("point", .vInts [500, 300]),
                   ("message", .vStr "confirm")] }).1 = true ∧
    actionToString
      { actionType := .CLICK, thinking := "", explanation := "",
        summary := "",
        params := [("point", .vInts [500, 300]),
                   ("message", .vStr "confirm")] }
      "function" = "do(action=\"Tap\", element=[500, 300])" ∧
    (parseResponse
      (actionToString
        { actionType := .CLICK, thinking := "", explanation := "",
          summary := "",
          params := [("point", .vInts [500, 300]),
                     ("message", .vStr "confirm")] }
        "function")).toOption.map Action.params =
      some [("point", .vInts [500, 300])] ∧
    ¬ ((parseResponse
      (actionToString
        { actionType := .CLICK, thinking := "", explanation := "",
          summary := "",
          params := [("point", .vInts [500, 300]),
                     ("message", .vStr "confirm")] }
        "function")).toOption.map Action.params =
      some [("point", .vInts [500, 300]), ("message", .vStr "confirm")]) := by
  decide

set_option maxRecDepth 40000 in
set_option maxHeartbeats 4000000 in
/-- C1 (amended): for every action kind and every admissible combination of
its required and optional parameters (at representative in-range values,
with and without the text fields), the action validates true and the
tab-format round trip `parse(to_string(action, "tab"))` reproduces the
action kind and the exact parameter map.  The function-call format does not
enjoy this property (see the counterexample). -/
theorem round_trip_tab_amended :
    ∀ a ∈ tabDomain, (validate a).1 = true ∧ tabRoundTripOk a = true := by
  decide

/-- C1 witness: the Click-with-message element of the domain validates and
round trips through the tab format. -/
theorem round_trip_tab_amended_witness :
    (validate (mkTableAction .CLICK ["point", "message"] true)).1 = true ∧
    tabRoundTripOk (mkTableAction .CLICK ["point", "message"] true) = true :=
  round_trip_tab_amended (mkTableAction .CLICK ["point", "message"] true)
    (by decide)

end OMG
